import Mathlib

/-
Verification of the platform-classification module `src/base/port.h` of mozc.

The header resolves, at build time, the current target platform into a value
of the enum `PlatformType` (the constant `kTargetPlatform`), using a chain of
preprocessor conditionals over the build-environment markers
`__linux__`, `__ANDROID__`, `OS_CHROMEOS`, `_WIN32`, `__APPLE__`,
`TARGET_OS_OSX`, `TARGET_OS_IPHONE` and `__wasm__`, and then exposes eight
constexpr predicates `TargetIs...` over the resolved constant.

We embed the markers as a structure of eight booleans, the preprocessor
chain as a function `kTargetPlatform : Markers → Except String PlatformType`
(an `#error` directive becomes `Except.error` with the source message), and
each predicate as a function of the resolved `PlatformType` value.
-/

deriving instance DecidableEq for Except

namespace Mozc

/-- PlatformType mirrors `enum class PlatformType` in base/port.h:
a mutually exclusive list of target platforms. -/
inductive PlatformType where
  | kWindows
  | kLinux
  | kOSX
  | kAndroid
  | kIPhone
  | kWASM
  | kChromeOS
  deriving DecidableEq, Repr, Fintype

/-- Markers is the set of build-environment markers consulted by port.h,
one boolean per preprocessor symbol: `linux` is `__linux__`, `android` is
`__ANDROID__`, `chromeos` is `OS_CHROMEOS`, `win32` is `_WIN32`, `apple` is
`__APPLE__`, `osx` is `TARGET_OS_OSX`, `iphone` is `TARGET_OS_IPHONE`, and
`wasm` is `__wasm__`. -/
structure Markers where
  linux : Bool
  android : Bool
  chromeos : Bool
  win32 : Bool
  apple : Bool
  osx : Bool
  iphone : Bool
  wasm : Bool
  deriving DecidableEq, Repr

/-- kTargetPlatform embeds the preprocessor chain of base/port.h lines 51-73
that defines the constant `kTargetPlatform`: the nested `#if`/`#elif`
conditionals become nested if-then-else over the markers, and the two
`#error` directives become `Except.error` carrying the source message. -/
def kTargetPlatform (m : Markers) : Except String PlatformType :=
  if m.linux then
    if m.android then Except.ok PlatformType.kAndroid
    else if m.chromeos then Except.ok PlatformType.kChromeOS
    else Except.ok PlatformType.kLinux
  else if m.win32 then Except.ok PlatformType.kWindows
  else if m.apple then
    if m.osx then Except.ok PlatformType.kOSX
    else if m.iphone then Except.ok PlatformType.kIPhone
    else Except.error "Unsupported Apple platform target."
  else if m.wasm then Except.ok PlatformType.kWASM
  else Except.error "Unsupported target platform."

/-- TargetIsWindows, from base/port.h lines 113-116: the resolved platform
is kWindows. Resolution is a build-time constant in the source; here each
predicate takes the resolved value as its argument. -/
def TargetIsWindows (p : PlatformType) : Bool :=
  p = PlatformType.kWindows

/-- TargetIsLinux, from base/port.h lines 119-126: the resolved platform is
kLinux, kAndroid or kChromeOS. -/
def TargetIsLinux (p : PlatformType) : Bool :=
  p = PlatformType.kLinux || p = PlatformType.kAndroid ||
    p = PlatformType.kChromeOS

/-- TargetIsAndroid, from base/port.h lines 129-132. -/
def TargetIsAndroid (p : PlatformType) : Bool :=
  p = PlatformType.kAndroid

/-- TargetIsDarwin, from base/port.h lines 135-138: the resolved platform is
kOSX or kIPhone. -/
def TargetIsDarwin (p : PlatformType) : Bool :=
  p = PlatformType.kOSX || p = PlatformType.kIPhone

/-- TargetIsOSX, from base/port.h lines 141-143. -/
def TargetIsOSX (p : PlatformType) : Bool :=
  p = PlatformType.kOSX

/-- TargetIsIPhone, from base/port.h lines 147-149. -/
def TargetIsIPhone (p : PlatformType) : Bool :=
  p = PlatformType.kIPhone

/-- TargetIsWASM, from base/port.h lines 152-154. -/
def TargetIsWASM (p : PlatformType) : Bool :=
  p = PlatformType.kWASM

/-- TargetIsChromeOS, from base/port.h lines 157-160. -/
def TargetIsChromeOS (p : PlatformType) : Bool :=
  p = PlatformType.kChromeOS

/-- specResolver follows the words of spec section 4.1 (priority-ordered,
first match wins): 1. Linux-family marker, with sub-markers Android then
ChromeOS, else desktop-Linux; 2. else Windows; 3. else Apple-family, with
sub-markers macOS then iPhone-family, else build failure; 4. else
WebAssembly; 5. else build failure. A build failure is `none`. -/
def specResolver (m : Markers) : Option PlatformType :=
  if m.linux then
    if m.android then some PlatformType.kAndroid
    else if m.chromeos then some PlatformType.kChromeOS
    else some PlatformType.kLinux
  else if m.win32 then some PlatformType.kWindows
  else if m.apple then
    if m.osx then some PlatformType.kOSX
    else if m.iphone then some PlatformType.kIPhone
    else none
  else if m.wasm then some PlatformType.kWASM
  else none

/-- supported characterises the marker sets matched by a value-producing
rule of spec section 4.1: rule 1 (Linux-family), rule 2 (Windows), rule 3
with a recognised Apple sub-marker, or rule 4 (WebAssembly, reached only
when the Apple-family marker is absent, since an Apple-family marker with
no recognised sub-marker is a build failure, not a fall-through). -/
def supported (m : Markers) : Bool :=
  m.linux || m.win32 || (m.apple && (m.osx || m.iphone)) ||
    (!m.apple && m.wasm)

/-- claimedFailureCond is the failure condition exactly as the spec claim
states it: (a) the Apple-family marker is set but neither the macOS nor the
iPhone sub-marker is, or (b) no top-level marker is set. -/
def claimedFailureCond (m : Markers) : Bool :=
  (m.apple && !m.osx && !m.iphone) ||
    (!m.linux && !m.win32 && !m.apple && !m.wasm)

/-- failureCond is the failure condition the code actually implements: the
Apple rule is only reached when the Linux-family and Windows markers are
both absent, so clause (a) carries that guard. -/
def failureCond (m : Markers) : Bool :=
  (!m.linux && !m.win32 && m.apple && !m.osx && !m.iphone) ||
    (!m.linux && !m.win32 && !m.apple && !m.wasm)

/-- desktopLinuxOnly is the desktop-Linux-only case of the spec: the
Linux-family predicate holds while the Android and ChromeOS leaf predicates
do not. -/
def desktopLinuxOnly (p : PlatformType) : Bool :=
  TargetIsLinux p && !TargetIsAndroid p && !TargetIsChromeOS p

/-- C1: the resolver follows exactly the priority order of spec section 4.1:
for every marker set its PlatformKind-or-build-failure result coincides with
the first-match-wins rule list of the spec. -/
theorem kTargetPlatform_matches_spec_priority_order (m : Markers) :
    (kTargetPlatform m).toOption = specResolver m := by
  obtain ⟨l, a, c, w, ap, o, i, ws⟩ := m
  revert l a c w ap o i ws
  decide

/-- C1 witness: the refinement instantiated at the marker set with only the
Linux-family and Android markers. -/
theorem kTargetPlatform_matches_spec_priority_order_witness :
    (kTargetPlatform ⟨true, true, false, false, false, false, false,
      false⟩).toOption =
      specResolver ⟨true, true, false, false, false, false, false, false⟩ :=
  kTargetPlatform_matches_spec_priority_order
    ⟨true, true, false, false, false, false, false, false⟩

/-- C2: each of the eight predicates returns true exactly on its documented
membership set of resolved platform values. -/
theorem predicates_match_membership (p : PlatformType) :
    (TargetIsWindows p = true ↔ p = PlatformType.kWindows) ∧
    (TargetIsLinux p = true ↔
      (p = PlatformType.kLinux ∨ p = PlatformType.kAndroid ∨
        p = PlatformType.kChromeOS)) ∧
    (TargetIsAndroid p = true ↔ p = PlatformType.kAndroid) ∧
    (TargetIsDarwin p = true ↔
      (p = PlatformType.kOSX ∨ p = PlatformType.kIPhone)) ∧
    (TargetIsOSX p = true ↔ p = PlatformType.kOSX) ∧
    (TargetIsIPhone p = true ↔ p = PlatformType.kIPhone) ∧
    (TargetIsWASM p = true ↔ p = PlatformType.kWASM) ∧
    (TargetIsChromeOS p = true ↔ p = PlatformType.kChromeOS) := by
  revert p
  decide

/-- C3: for every resolved platform value exactly one of the seven leaf
cases holds, and the two family predicates hold exactly on the declared
members of their families. -/
theorem exactly_one_leaf_case (p : PlatformType) :
    ([TargetIsWindows p, TargetIsAndroid p, TargetIsOSX p, TargetIsIPhone p,
      TargetIsWASM p, TargetIsChromeOS p, desktopLinuxOnly p].count true
      = 1) ∧
    (TargetIsLinux p = true ↔
      (p = PlatformType.kLinux ∨ p = PlatformType.kAndroid ∨
        p = PlatformType.kChromeOS)) ∧
    (TargetIsDarwin p = true ↔
      (p = PlatformType.kOSX ∨ p = PlatformType.kIPhone)) := by
  revert p
  decide

/-- C4: for every marker set matched by some value-producing rule of spec
section 4.1 the resolver yields exactly one PlatformKind value. -/
theorem resolver_total_and_unambiguous (m : Markers)
    (h : supported m = true) :
    ∃! p, kTargetPlatform m = Except.ok p := by
  obtain ⟨l, a, c, w, ap, o, i, ws⟩ := m
  revert h
  revert l a c w ap o i ws
  simp only [ExistsUnique]
  decide

/-- C4 witness: the marker set with only the Linux-family and ChromeOS
markers is supported and resolves to exactly one value. -/
theorem resolver_total_and_unambiguous_witness :
    ∃! p, kTargetPlatform ⟨true, false, true, false, false, false, false,
      false⟩ = Except.ok p :=
  resolver_total_and_unambiguous
    ⟨true, false, true, false, false, false, false, false⟩ (by decide)

/-- C5: the family-membership implications: Android and ChromeOS imply the
Linux family, OSX and iPhone imply the Darwin family. -/
theorem family_membership_implications (p q r s : PlatformType)
    (h1 : TargetIsAndroid p = true) (h2 : TargetIsChromeOS q = true)
    (h3 : TargetIsOSX r = true) (h4 : TargetIsIPhone s = true) :
    TargetIsLinux p = true ∧ TargetIsLinux q = true ∧
    TargetIsDarwin r = true ∧ TargetIsDarwin s = true := by
  revert p q r s
  decide

/-- C5 witness: the implications instantiated at kAndroid, kChromeOS, kOSX
and kIPhone. -/
theorem family_membership_implications_witness :
    TargetIsLinux PlatformType.kAndroid = true ∧
    TargetIsLinux PlatformType.kChromeOS = true ∧
    TargetIsDarwin PlatformType.kOSX = true ∧
    TargetIsDarwin PlatformType.kIPhone = true :=
  family_membership_implications PlatformType.kAndroid PlatformType.kChromeOS
    PlatformType.kOSX PlatformType.kIPhone (by decide) (by decide)
    (by decide) (by decide)

/-- C6 counterexample: the marker set with the Linux-family and Apple-family
markers both set and no Apple sub-marker satisfies the claimed failure
condition, clause (a), yet the resolver succeeds with kLinux: the Linux rule
is checked before the Apple rule, so the claimed if-and-only-if is false. -/
theorem failure_iff_claim_counterexample :
    claimedFailureCond ⟨true, false, false, false, true, false, false,
      false⟩ = true ∧
    kTargetPlatform ⟨true, false, false, false, true, false, false, false⟩
      = Except.ok PlatformType.kLinux := by
  decide

/-- C6 amended: the resolver fails if and only if either (a) the Linux and
Windows markers are absent and the Apple-family marker is set with neither
sub-marker, or (b) no top-level marker is set; in every other case it
returns a PlatformKind. -/
theorem failure_iff_amended (m : Markers) :
    (kTargetPlatform m).isOk = false ↔ failureCond m = true := by
  obtain ⟨l, a, c, w, ap, o, i, ws⟩ := m
  revert l a c w ap o i ws
  decide

/-- C7 counterexample: the Apple half of the claim fails on a marker set
that also contains the Linux-family marker: with linux, apple, osx and
iphone all set the resolver yields kLinux, not kOSX, because the Linux rule
is checked first. The Linux half of the claim is not at fault, so the
conjunction as stated is refuted through its Apple half. -/
theorem dual_marker_claim_counterexample :
    ¬ ((∀ m : Markers, m.linux = true → m.android = true →
          m.chromeos = true →
          kTargetPlatform m = Except.ok PlatformType.kAndroid) ∧
       (∀ m : Markers, m.apple = true → m.osx = true → m.iphone = true →
          kTargetPlatform m = Except.ok PlatformType.kOSX)) := fun h =>
  absurd
    (h.2 ⟨true, false, false, false, true, true, true, false⟩ rfl rfl rfl)
    (by decide)

/-- C7 amended: dual-marker precedence. Any marker set with the Linux-family
marker and both the Android and ChromeOS sub-markers resolves to Android;
any marker set with the Apple-family marker and both the macOS and iPhone
sub-markers, in which the earlier-checked Linux-family and Windows markers
are absent, resolves to desktop macOS. -/
theorem dual_marker_precedence (m n : Markers)
    (h1 : m.linux = true) (h2 : m.android = true) (h3 : m.chromeos = true)
    (h4 : n.linux = false) (h5 : n.win32 = false) (h6 : n.apple = true)
    (h7 : n.osx = true) (h8 : n.iphone = true) :
    kTargetPlatform m = Except.ok PlatformType.kAndroid ∧
    kTargetPlatform n = Except.ok PlatformType.kOSX := by
  simp [kTargetPlatform, h1, h2, h3, h4, h5, h6, h7, h8]

/-- C7 witness: the precedence instantiated at the marker sets
{linux, android, chromeos} and {apple, osx, iphone}. -/
theorem dual_marker_precedence_witness :
    kTargetPlatform ⟨true, true, true, false, false, false, false, false⟩
      = Except.ok PlatformType.kAndroid ∧
    kTargetPlatform ⟨false, false, false, false, true, true, true, false⟩
      = Except.ok PlatformType.kOSX :=
  dual_marker_precedence
    ⟨true, true, true, false, false, false, false, false⟩
    ⟨false, false, false, false, true, true, true, false⟩
    rfl rfl rfl rfl rfl rfl rfl rfl

/-- C8: no two predicates are simultaneously true except the sanctioned
family overlaps: the Linux and Darwin families never overlap, no leaf of
one family meets the other family, and the Windows and WASM leaves meet no
family. -/
theorem no_unsanctioned_overlap (p : PlatformType) :
    (TargetIsLinux p && TargetIsDarwin p) = false ∧
    (TargetIsOSX p && TargetIsLinux p) = false ∧
    (TargetIsIPhone p && TargetIsLinux p) = false ∧
    (TargetIsAndroid p && TargetIsDarwin p) = false ∧
    (TargetIsChromeOS p && TargetIsDarwin p) = false ∧
    (TargetIsWindows p && (TargetIsLinux p || TargetIsDarwin p)) = false ∧
    (TargetIsWASM p && (TargetIsLinux p || TargetIsDarwin p)) = false := by
  revert p
  decide

/-- C9: the Linux family is exactly the complement of Windows, the Darwin
family and WASM over the platform enumeration. -/
theorem linux_family_is_complement (p : PlatformType) :
    TargetIsLinux p =
      (!TargetIsWindows p && !TargetIsDarwin p && !TargetIsWASM p) := by
  revert p
  decide

/-- C10: the resolved platform is kLinux exactly when the Linux-family
predicate holds and the Android and ChromeOS predicates do not. -/
theorem desktop_linux_iff_conjunction (p : PlatformType) :
    p = PlatformType.kLinux ↔
      (TargetIsLinux p = true ∧ TargetIsAndroid p = false ∧
        TargetIsChromeOS p = false) := by
  revert p
  decide

end Mozc
